import Mathlib

/-!
Verification development for the SchoologyRemastered browser extension
(`src/content.js`).  The voice command and playback state machine, the
comment store and the extraction / summarization fallback logic are
embedded shallowly as pure Lean functions over an explicit state record.

Modelling conventions:
* JavaScript strings are Lean `String`s; the JS helpers
  `toLowerCase`, `trim`, `includes`, `split`, `slice`, `join` are embedded
  as executable functions on the underlying `List Char`.
* Machine time is a natural number of milliseconds.  Positions are
  rationals, because `skipSeconds` multiplies by 2.5 words per second.
* `setTimeout` timers are stored as absolute deadlines
  (`Option Nat`); a timer event can fire only while its deadline is armed
  and due, matching `clearTimeout` semantics.
* Engine callbacks that merely flip a flag (`onstart`) are collapsed
  into the call that requests them; the event contracts of the external
  speech engines are otherwise kept.
-/

namespace Schoology

/-- JS-style prefix test on character lists. -/
def prefixL : List Char → List Char → Bool
  | [], _ => true
  | _ :: _, [] => false
  | a :: as, b :: bs => a == b && prefixL as bs

/-- JS-style substring containment on character lists. -/
def containsL (pat : List Char) : List Char → Bool
  | [] => prefixL pat []
  | b :: bs => prefixL pat (b :: bs) || containsL pat bs

/-- Embedding of `String.prototype.includes`. -/
def includes (s pat : String) : Bool := containsL pat.data s.data

/-- Embedding of `String.prototype.toLowerCase` (ASCII, which is all the
source uses). -/
def lowerStr (s : String) : String := ⟨s.data.map Char.toLower⟩

/-- Whitespace predicate used by `trim`. -/
def wsChar (c : Char) : Bool := c.isWhitespace

/-- Both-ends whitespace trim on a character list. -/
def trimList (l : List Char) : List Char :=
  ((l.dropWhile wsChar).reverse.dropWhile wsChar).reverse

/-- Embedding of `String.prototype.trim`. -/
def jsTrim (s : String) : String := ⟨trimList s.data⟩

/-- Embedding of `String.prototype.split(sep)` for a one-character
separator: empty fields are kept, and the empty string splits to `[""]`. -/
def splitOnChar (sep : Char) : List Char → List (List Char)
  | [] => [[]]
  | c :: rest =>
    match splitOnChar sep rest with
    | [] => [[c]]
    | w :: ws => if c == sep then [] :: w :: ws else (c :: w) :: ws

/-- Embedding of `text.split(' ')`. -/
def jsWords (s : String) : List String :=
  (splitOnChar ' ' s.data).map (fun l => ⟨l⟩)

/-- Embedding of `words.join(' ')`. -/
def joinWords (ws : List String) : String :=
  ⟨List.intercalate [' '] (ws.map String.data)⟩

/-- Index used by `Array.prototype.slice` for a non-negative fractional
argument: truncation to an integer. -/
def sliceIndex (q : ℚ) : Nat := (Int.floor q).toNat

/-- Embedding of `words.slice(pos)` for the non-negative positions the
source produces. -/
def dropWords (q : ℚ) (ws : List String) : List String := ws.drop (sliceIndex q)

/-- Actions the command router can dispatch
(`VoiceCommandSystem.processVoiceCommand`, src/content.js lines 936-994). -/
inductive Action where
  | downloadFile
  | extractText
  | performOCR
  | speakText
  | pause
  | resume
  | skip (seconds : Int)
  | summarizeComments
  | addComment
  | showComments
  | clearComments
  | addDownloadButton
  | addExtractButton
  | addOCRButton
  | addAllButtons
  | removeAllButtons
  | forceAddDownloadButton
  | debugStorage
  | reloadComments
  | wake
  | sleep
  | help
  | unknown
  | endComment
deriving DecidableEq

/-- The ordered first-match-wins substring chain of
`processVoiceCommand` (src/content.js lines 936-994), branch for branch in
source order.  Because the generic `"skip"`/`"forward"` test (line 949)
precedes the `"skip 5"`/`"skip 15"` tests (lines 953 and 957), the
specific-count branches are unreachable. -/
def routeCommand (command : String) : Action :=
  if includes command "download" || includes command "download button" then .downloadFile
  else if includes command "extract" || includes command "read" || includes command "text" then .extractText
  else if includes command "ocr" || includes command "scan" then .performOCR
  else if includes command "speak" || includes command "read aloud" || includes command "play text" then .speakText
  else if includes command "pause" || includes command "stop speaking" then .pause
  else if includes command "resume" || includes command "continue" || includes command "play" then .resume
  else if includes command "skip" || includes command "forward" then .skip 10
  else if includes command "back" || includes command "rewind" then .skip (-10)
  else if includes command "skip 5" || includes command "forward 5" then .skip 5
  else if includes command "back 5" || includes command "rewind 5" then .skip (-5)
  else if includes command "skip 15" || includes command "forward 15" then .skip 15
  else if includes command "back 15" || includes command "rewind 15" then .skip (-15)
  else if includes command "summarize comments" || includes command "summarize comment" then .summarizeComments
  else if includes command "add comment" then .addComment
  else if includes command "show comments" || includes command "view comments" then .showComments
  else if includes command "clear comments" || includes command "delete comments" then .clearComments
  else if includes command "add download button" then .addDownloadButton
  else if includes command "add extract button" then .addExtractButton
  else if includes command "add ocr button" then .addOCRButton
  else if includes command "all" && includes command "button" then .addAllButtons
  else if includes command "remove" || includes command "clear" || includes command "delete" then .removeAllButtons
  else if includes command "force download" || includes command "force add download" then .forceAddDownloadButton
  else if includes command "debug storage" || includes command "check storage" then .debugStorage
  else if includes command "reload comments" || includes command "refresh comments" then .reloadComments
  else if includes command "hey schoology" || includes command "activate" || includes command "wake up" then .wake
  else if includes command "sleep" || includes command "deactivate" || includes command "goodbye" then .sleep
  else if includes command "help" || includes command "commands" || includes command "what" then .help
  else .unknown

/-- A persisted comment record (`VoiceCommandSystem.saveComment`,
src/content.js lines 1942-1960).  `position2` is twice the JS `position`
value: every position the source computes is a multiple of one half
(the word rate is 2.5 = 5/2 words per second), so doubling makes the
arithmetic exact over `Nat`.  `timestamp` keeps the creation time in
milliseconds (the source renders it as a locale string). -/
structure CommentRecord where
  id : Nat
  text : String
  position2 : Nat
  timestamp : Nat
  fileName : String
  assignmentId : String
deriving DecidableEq

/-- The mutable state of the `VoiceCommandSystem` class
(src/content.js lines 518-549) together with the page environment it
reads and a ghost `dispatchLog` recording every action the command
router dispatches.  `recognition` holds the identity of the live main
engine instance (`engineGen` numbers constructed instances);
`position2` is twice the JS `currentPosition` (see `CommentRecord`).
`storage` models `browserAPI.storage.local` under the key
`voice_comments`. -/
structure VoiceState where
  recognition : Option Nat
  engineGen : Nat
  isListening : Bool
  isEnabled : Bool
  isAwake : Bool
  wakeWordTimeout : Option Nat
  commandTimeout : Option Nat
  lastInterimCommand : String
  isSpeaking : Bool
  isPaused : Bool
  hasUtterance : Bool
  currentText : String
  position2 : Nat
  speechStartTime : Nat
  comments : List CommentRecord
  storage : Option (List CommentRecord)
  commentRecognition : Bool
  isRecordingComment : Bool
  commentTranscript : String
  commentPosition2 : Nat
  currentAssignmentId : String
  cachedFileName : Option String
  cachedText : Option String
  dispatchLog : List Action
  lastStatus : String
deriving DecidableEq

/-- The JS `positionWords` value of a state: half of `position2`. -/
def positionWords (s : VoiceState) : ℚ := (s.position2 : ℚ) / 2

/-- Word-position estimate from elapsed wall-clock time:
`Math.floor((now - startTime) / 1000 * 2.5)` (src/content.js line 1413 and
line 1623).  Over exact arithmetic this is `(now - startTime) / 400` in
natural division; `wordRateEst_eq_floor` certifies the identity. -/
def wordRateEst (startTime now : Nat) : Nat := (now - startTime) / 400

/-- Embedding of `startSpeaking(text)` (src/content.js lines 1353-1399):
cancel any current synthesis, store the text, reset the position, record
the start time and issue a new utterance; the engine `onstart` callback
(lines 1369-1374) setting `isSpeaking = true, isPaused = false` is
collapsed into the call. -/
def startSpeaking (s : VoiceState) (now : Nat) (text : String) : VoiceState :=
  { s with currentText := text, position2 := 0, speechStartTime := now,
           hasUtterance := true, isSpeaking := true, isPaused := false }

/-- Embedding of `pauseSpeaking()` (src/content.js lines 1401-1426):
effective only when speaking and not paused; estimates the position as
`min(floor(elapsed / 1000 * 2.5), words.length)` and flips the flags,
otherwise only a status message is emitted. -/
def pauseSpeaking (s : VoiceState) (now : Nat) : VoiceState :=
  if s.isSpeaking && !s.isPaused then
    { s with position2 := min (2 * wordRateEst s.speechStartTime now)
                             (2 * (jsWords s.currentText).length),
             isSpeaking := false, isPaused := true,
             lastStatus := "Speech paused" }
  else
    { s with lastStatus := "Cannot pause - not speaking" }

/-- Embedding of `resumeSpeaking()` (src/content.js lines 1428-1462):
when paused with text, restart synthesis on `words.slice(position)`;
when fully stopped with text, start from the beginning; otherwise emit
a status message. -/
def resumeSpeaking (s : VoiceState) (now : Nat) : VoiceState :=
  if s.isPaused && s.currentText != "" then
    let words := jsWords s.currentText
    let remainingText := joinWords (words.drop (s.position2 / 2))
    if jsTrim remainingText != "" then
      { (startSpeaking { s with isPaused := false } now remainingText) with
          lastStatus := "Speech resumed" }
    else
      { s with isPaused := false, lastStatus := "No more text to read" }
  else if !s.isSpeaking && !s.isPaused && s.currentText != "" then
    { (startSpeaking s now s.currentText) with lastStatus := "Speech started" }
  else
    { s with lastStatus := "Cannot resume - no paused speech" }

/-- The clamped position `skipSeconds` computes (src/content.js lines
1469-1480), in half-words: forward skips add `|seconds| * 2.5` words and
clamp at `words.length`; backward skips subtract and clamp at 0 (natural
subtraction is exactly `Math.max(p - skip, 0)`). -/
def skipTarget2 (pos2 len : Nat) (seconds : Int) : Nat :=
  if 0 < seconds then min (pos2 + seconds.natAbs * 5) (2 * len)
  else pos2 - seconds.natAbs * 5

/-- Embedding of `skipSeconds(seconds)` (src/content.js lines 1464-1488):
only acts while speaking with a live utterance; cancels synthesis, clamps
the new position and restarts synthesis on the remaining words (the
`slice` index truncates the possibly fractional position). -/
def skipSeconds (s : VoiceState) (now : Nat) (seconds : Int) : VoiceState :=
  if s.isSpeaking && s.hasUtterance then
    let pos2 := skipTarget2 s.position2 (jsWords s.currentText).length seconds
    let remainingText := joinWords ((jsWords s.currentText).drop (pos2 / 2))
    { (startSpeaking { s with position2 := pos2 } now remainingText) with
        lastStatus := "Skipped" }
  else s

/-- Embedding of `stopSpeaking()` (src/content.js lines 1601-1608). -/
def stopSpeaking (s : VoiceState) : VoiceState :=
  { s with isSpeaking := false, isPaused := false, position2 := 0,
           lastStatus := "Speech stopped" }

/-- Embedding of `speakText()` (src/content.js lines 1317-1351): the
cached file text (extraction is modelled by the `cachedText` environment
field) is narrated from the start when present and non-empty. -/
def speakText (s : VoiceState) (now : Nat) : VoiceState :=
  match s.cachedText with
  | some text =>
    if text != "" then
      { (startSpeaking s now text) with lastStatus := "Reading text aloud" }
    else
      { s with lastStatus := "No text found to read" }
  | none => { s with lastStatus := "No file cached" }

/-- Embedding of `activateWakeMode()` (src/content.js lines 887-902):
only the flag and the UI change; no deactivation timer is armed here. -/
def activateWakeMode (s : VoiceState) : VoiceState :=
  { s with isAwake := true }

/-- Embedding of `deactivateWakeMode()` (src/content.js lines 904-922):
clears the wake flag and the wake-word timer (the interim-command
debounce timer is left untouched). -/
def deactivateWakeMode (s : VoiceState) : VoiceState :=
  { s with isAwake := false, wakeWordTimeout := none,
           lastStatus := "Say the wake phrase to activate" }

/-- The record `saveComment(text)` builds (src/content.js lines 1946-1953):
id and timestamp from `Date.now()`, position from
`currentCommentPosition`, file name from the cached file data, assignment
id from the page URL. -/
def mkSavedComment (s : VoiceState) (now : Nat) (text : String) : CommentRecord :=
  { id := now, text := text, position2 := s.commentPosition2,
    timestamp := now, fileName := s.cachedFileName.getD "Unknown file",
    assignmentId := s.currentAssignmentId }

/-- Embedding of `saveComment(text)` (src/content.js lines 1942-1960):
append the record to the in-memory list and flush the whole list to
storage (`saveCommentsToStorage`, lines 2744-2753). -/
def saveComment (s : VoiceState) (now : Nat) (text : String) : VoiceState :=
  let newComments := s.comments ++ [mkSavedComment s now text]
  { s with comments := newComments, storage := some newComments,
           lastStatus := "Comment saved" }

/-- Embedding of `deleteComment(commentId)` (src/content.js lines
2289-2294): filter the list and flush. -/
def deleteComment (s : VoiceState) (commentId : Nat) : VoiceState :=
  let newComments := s.comments.filter (fun c => c.id != commentId)
  { s with comments := newComments, storage := some newComments,
           lastStatus := "Comment deleted" }

/-- Embedding of `clearComments()` (src/content.js lines 2296-2301). -/
def clearComments (s : VoiceState) : VoiceState :=
  { s with comments := [], storage := some [],
           lastStatus := "All comments cleared" }

/-- Embedding of `clearCommentsForAssignment(assignmentId)`
(src/content.js lines 2303-2308): drop exactly the comments of the given
assignment and flush. -/
def clearCommentsForAssignment (s : VoiceState) (assignmentId : String) : VoiceState :=
  let newComments := s.comments.filter (fun c => c.assignmentId != assignmentId)
  { s with comments := newComments, storage := some newComments,
           lastStatus := "Comments cleared for assignment" }

/-- Embedding of `loadCommentsFromStorage` (src/content.js lines
2755-2783): replace the in-memory list with the stored array, or with the
empty list when nothing valid is stored. -/
def loadCommentsFromStorage (s : VoiceState) : VoiceState :=
  { s with comments := s.storage.getD [] }

/-- Embedding of `addComment()` (src/content.js lines 1610-1637): pause
any current playback, anchor the comment position from the elapsed-time
estimate, reset the dialog buffers (`showCommentDialog`, lines
1696-1699), tear the main recognition engine down entirely
(`stopMainVoiceRecognition`, lines 1706-1728) and start the dedicated
comment engine (`startCommentOnlyRecognition`, lines 1730-1829, with its
`onstart` collapsed into the call).  Note that `isAwake` is never
touched. -/
def addComment (s : VoiceState) (now : Nat) : VoiceState :=
  let s1 := if s.isSpeaking && !s.isPaused then pauseSpeaking s now else s
  let position2 :=
    if s1.isSpeaking || s1.isPaused then
      min (2 * wordRateEst s1.speechStartTime now)
          (2 * (jsWords s1.currentText).length)
    else 0
  let s2 := { s1 with
                commentPosition2 := position2
                commentRecognition := false
                commentTranscript := ""
                isRecordingComment := false }
  let s3 := { s2 with
                isEnabled := false
                isListening := false
                recognition := none }
  { s3 with
      commentRecognition := true
      isRecordingComment := true
      lastStatus := "Comment mode" }

/-- Embedding of `initializeVoiceRecognition()` (src/content.js lines
556-745): a fresh recognition engine instance is constructed and its
handlers installed. -/
def initializeVoiceRecognition (s : VoiceState) : VoiceState :=
  { s with recognition := some s.engineGen, engineGen := s.engineGen + 1 }

/-- Embedding of `startListening()` (src/content.js lines 818-866): no-op
without an engine or while already listening; otherwise enables the
system and starts the engine (its `onstart`, lines 572-576, collapsed). -/
def startListening (s : VoiceState) : VoiceState :=
  match s.recognition with
  | none => s
  | some _ =>
    if s.isListening then s
    else { s with isEnabled := true, isListening := true }

/-- Embedding of `stopListening()` (src/content.js lines 868-878). -/
def stopListening (s : VoiceState) : VoiceState :=
  { s with isEnabled := false, isListening := false }

/-- Embedding of `stopCommentAndSave()` (src/content.js lines 1865-1903):
stop the comment engine, persist the buffer when non-empty, close the
dialog, re-enable the system and construct a fresh main engine that
resumes listening (the delayed initializer block, lines 1891-1902, runs
with `isEnabled = true`).  `isAwake` is never touched. -/
def stopCommentAndSave (s : VoiceState) (now : Nat) : VoiceState :=
  let s1 := { s with isRecordingComment := false, commentRecognition := false }
  let s2 :=
    if jsTrim s1.commentTranscript != "" then
      saveComment s1 now s1.commentTranscript
    else { s1 with lastStatus := "No comment to save" }
  startListening (initializeVoiceRecognition { s2 with isEnabled := true })

/-- State effect of a routed action.  Actions whose effects live outside
the modelled state (DOM buttons, clipboard, downloads, dialogs) leave the
state unchanged; their dispatch is still recorded by the caller. -/
def applyAction (s : VoiceState) (now : Nat) : Action → VoiceState
  | .speakText => speakText s now
  | .pause => pauseSpeaking s now
  | .resume => resumeSpeaking s now
  | .skip n => skipSeconds s now n
  | .summarizeComments => loadCommentsFromStorage s
  | .addComment => addComment s now
  | .showComments => loadCommentsFromStorage s
  | .clearComments => clearComments s
  | .reloadComments => loadCommentsFromStorage s
  | .wake => activateWakeMode s
  | .sleep => deactivateWakeMode s
  | .unknown => { s with lastStatus := "Unknown command" }
  | _ => s

/-- Embedding of `processVoiceCommand(command)` (src/content.js lines
924-995).  While a comment is being recorded only a command containing
"end comment" does anything (lines 927-934; the `endCommentRecording`
method it calls is in fact never defined on the class, so no state
change is modelled); otherwise the routed action is dispatched and
applied.  The ghost `dispatchLog` records every dispatch. -/
def processVoiceCommand (s : VoiceState) (now : Nat) (command : String) : VoiceState :=
  if s.isRecordingComment then
    if includes command "end comment" then
      { s with dispatchLog := s.dispatchLog ++ [Action.endComment] }
    else s
  else
    applyAction { s with dispatchLog := s.dispatchLog ++ [routeCommand command] }
      now (routeCommand command)

/-- Reset of the 10-second wake deactivation timer performed after a
dispatched command, guarded on the timer being armed (src/content.js
lines 627-632, 657-662 and 677-683). -/
def resetWakeTimeoutIfSet (s : VoiceState) (now : Nat) : VoiceState :=
  match s.wakeWordTimeout with
  | some _ => { s with wakeWordTimeout := some (now + 10000) }
  | none => s

/-- The wake phrase (src/content.js line 528). -/
def wakeWord : String := "hey schoology"

/-- Embedding of the main recognition `onresult` handler (src/content.js
lines 578-688): wake-word detection arms the 10-second deactivation
timer; while dormant nothing else happens; a final transcript is routed
as a command and re-arms the wake timer; an interim transcript arms the
1.5-second debounce timer and urgent fragments (pause/stop/resume/
continue) are routed immediately. -/
def mainOnResult (s : VoiceState) (now : Nat) (finalT interimT : String) : VoiceState :=
  let fullText := jsTrim (lowerStr (finalT ++ interimT))
  if !s.isAwake && includes fullText wakeWord then
    { (activateWakeMode s) with
        wakeWordTimeout := some (now + 10000)
        lastStatus := "Listening for commands" }
  else if !s.isAwake then s
  else if finalT != "" then
    resetWakeTimeoutIfSet (processVoiceCommand s now (jsTrim (lowerStr finalT))) now
  else if interimT != "" then
    let lowerInterim := jsTrim (lowerStr interimT)
    let s1 := { s with lastInterimCommand := lowerInterim,
                       commandTimeout := some (now + 1500) }
    if includes lowerInterim "pause" || includes lowerInterim "stop" ||
       includes lowerInterim "resume" || includes lowerInterim "continue" then
      resetWakeTimeoutIfSet
        { (processVoiceCommand s1 now lowerInterim) with commandTimeout := none } now
    else s1
  else s

/-- Embedding of the interim-command debounce callback (src/content.js
lines 649-664): when it fires, a pending interim command is routed and
the wake timer re-armed when set. -/
def debounceFire (s : VoiceState) (now : Nat) : VoiceState :=
  let s0 := { s with commandTimeout := none }
  if s0.lastInterimCommand != "" then
    resetWakeTimeoutIfSet
      { (processVoiceCommand s0 now s0.lastInterimCommand) with
          lastInterimCommand := "" } now
  else s0

/-- Embedding of the comment-session `onresult` handler (src/content.js
lines 1759-1792): any transcript containing "stop comment" ends the
session; otherwise final text is appended to the comment buffer and
interim text only feeds the live preview. -/
def commentOnResult (s : VoiceState) (now : Nat) (finalT interimT : String) : VoiceState :=
  let fullText := lowerStr (finalT ++ interimT)
  if includes fullText "stop comment" then
    if s.isRecordingComment then stopCommentAndSave s now else s
  else if finalT != "" then
    { s with commentTranscript := s.commentTranscript ++ finalT ++ " " }
  else s

/-- External events the modelled system reacts to: user clicks, engine
result callbacks and the two one-shot timers.  Each timer event is
enabled only while its deadline is armed and due, matching
`setTimeout`/`clearTimeout`. -/
inductive Event where
  | startClick
  | stopClick
  | mainResult (now : Nat) (finalT interimT : String)
  | commentResult (now : Nat) (finalT interimT : String)
  | wakeTick (now : Nat)
  | debounceTick (now : Nat)
  | ttsPauseClick (now : Nat)
  | ttsResumeClick (now : Nat)
  | ttsSkipForwardClick (now : Nat)
  | ttsSkipBackClick (now : Nat)
  | ttsStopClick

/-- Whether an armed one-shot timer is due at `now`. -/
def timerDue (timer : Option Nat) (now : Nat) : Bool :=
  match timer with
  | some deadline => decide (deadline ≤ now)
  | none => false

/-- One step of the event-driven system.  Main-engine results require a
live, listening main engine; comment results require the comment engine;
the TTS control panel buttons (src/content.js lines 1531-1555) call the
playback operations directly. -/
def step (s : VoiceState) : Event → VoiceState
  | .startClick => startListening s
  | .stopClick => stopListening s
  | .mainResult now f i =>
    if s.recognition.isSome && s.isListening then mainOnResult s now f i else s
  | .commentResult now f i =>
    if s.commentRecognition then commentOnResult s now f i else s
  | .wakeTick now =>
    if timerDue s.wakeWordTimeout now then deactivateWakeMode s else s
  | .debounceTick now =>
    if timerDue s.commandTimeout now then debounceFire s now else s
  | .ttsPauseClick now => pauseSpeaking s now
  | .ttsResumeClick now => resumeSpeaking s now
  | .ttsSkipForwardClick now => skipSeconds s now 10
  | .ttsSkipBackClick now => skipSeconds s now (-10)
  | .ttsStopClick => stopSpeaking s

/-- Run a list of events from a state. -/
def runEvents (s : VoiceState) (es : List Event) : VoiceState := es.foldl step s

/-- The state after the class constructor and `init()` run
(src/content.js lines 519-554): flags cleared, a first engine instance
constructed, nothing listening.  The page environment (assignment id,
cached file) and the stored comment list are parameters. -/
def initState (assignmentId : String) (fileName : Option String)
    (text : Option String) (storage0 : Option (List CommentRecord)) : VoiceState :=
  { recognition := some 0, engineGen := 1, isListening := false,
    isEnabled := false, isAwake := false, wakeWordTimeout := none,
    commandTimeout := none, lastInterimCommand := "", isSpeaking := false,
    isPaused := false, hasUtterance := false, currentText := "",
    position2 := 0, speechStartTime := 0, comments := [],
    storage := storage0, commentRecognition := false,
    isRecordingComment := false, commentTranscript := "",
    commentPosition2 := 0, currentAssignmentId := assignmentId,
    cachedFileName := fileName, cachedText := text, dispatchLog := [],
    lastStatus := "" }

/-- Reachability: some run of the system from some initial environment. -/
def Reachable (s : VoiceState) : Prop :=
  ∃ assignmentId fileName text storage0 es,
    s = runEvents (initState assignmentId fileName text storage0) es

/-- Image extensions recognized by `extractText` (src/content.js line 169). -/
def imageExtensions : List String := ["jpg", "jpeg", "png", "gif", "bmp", "tiff"]

/-- Embedding of `fileName.split('.').pop().toLowerCase()`
(src/content.js line 164). -/
def jsFileExtension (fileName : String) : String :=
  lowerStr ⟨(splitOnChar '.' fileName.data).getLastD []⟩

/-- Embedding of `String.prototype.startsWith`. -/
def jsStartsWith (s pre : String) : Bool := prefixL pre.data s.data

/-- Embedding of the extraction orchestrator `extractText(blob, fileName)`
(src/content.js lines 162-195).  The external engines are modelled by
their results: `pdfResult` is what `extractTextFromPDF` returns (that
function catches every failure and returns the empty string, lines
26-52) and `ocrResult` is what `extractTextFromImage` returns (likewise
total,lines 109-160, and always a trimmed string). -/
def extractText (fileName blobType pdfResult ocrResult : String) : String :=
  let fileExtension := jsFileExtension fileName
  let isImageFilename := imageExtensions.contains fileExtension
  let isImageBlob := jsStartsWith blobType "image/"
  if isImageFilename || isImageBlob then ocrResult
  else if fileExtension == "pdf" || blobType == "application/pdf" then
    if pdfResult == "" || (jsTrim pdfResult).length < 10 then
      if ocrResult != "" && 0 < (jsTrim ocrResult).length then ocrResult
      else pdfResult
    else pdfResult
  else ""

/-- Embedding of `comment.text.charAt(0).toUpperCase() +
comment.text.slice(1)` (src/content.js line 2590). -/
def capitalizeFirst (s : String) : String :=
  match s.data with
  | [] => ""
  | c :: rest => ⟨Char.toUpper c :: rest⟩

/-- The casual-to-formal rewrite applied to one comment by
`generateLocalSummary` (src/content.js lines 2562-2595), pattern for
pattern in source order. -/
def convertComment (raw : String) : String :=
  let text := jsTrim (lowerStr raw)
  if includes text "fix formatting" || includes text "formatting" then
    "Please review the formatting of your assignment to ensure it follows proper academic standards."
  else if includes text "good" || includes text "great" then
    "Your work demonstrates good understanding of the concepts."
  else if includes text "grammar" || includes text "spelling" then
    "Please review your work for grammar and spelling errors before submission."
  else if includes text "explain" || includes text "more detail" then
    "Please provide more detailed explanations to support your arguments."
  else if includes text "cite" || includes text "source" then
    "Remember to properly cite your sources and provide references."
  else if includes text "structure" || includes text "organization" then
    "Please improve the organization and structure of your response."
  else if includes text "answer" || includes text "question" then
    "Please ensure you have fully addressed all parts of the question."
  else if 10 < text.length && (includes text "." || includes text "!" || includes text "?") then
    capitalizeFirst raw
  else
    "Please " ++ lowerStr raw ++ "."

/-- Embedding of `generateLocalSummary()` (src/content.js lines
2547-2612): filter the comments of the current assignment, rewrite each,
and join with a template chosen by the comment count (one, two, or more
than two). -/
def generateLocalSummary (comments : List CommentRecord)
    (currentAssignmentId : String) : String :=
  let assignmentComments :=
    comments.filter (fun c => c.assignmentId == currentAssignmentId)
  let commentCount := assignmentComments.length
  if commentCount == 0 then
    "I have reviewed your assignment and found it to demonstrate good understanding of the material. Keep up the excellent work!"
  else
    let formalComments := assignmentComments.map (fun c => convertComment c.text)
    if commentCount == 1 then formalComments.headD ""
    else if commentCount == 2 then
      formalComments.headD "" ++ " Additionally, " ++
        lowerStr (formalComments.getD 1 "")
    else
      "I have reviewed your assignment and have several areas for improvement. " ++
        joinWords formalComments.dropLast ++ " " ++ "Finally, " ++
        lowerStr (formalComments.getLastD "")

/-- Embedding of the summarization fallback chain
`callGeminiAPI(prompt)` → `callOpenAIAPI(prompt)` → `generateLocalSummary()`
(src/content.js lines 2443-2545): each external HTTP call either returns
generated text or fails (missing key, non-2xx response or malformed
payload, all raised and caught as exceptions); the final fallback is the
pure local generator. -/
def callGeminiAPI (primary secondary : Except String String)
    (comments : List CommentRecord) (currentAssignmentId : String) : String :=
  match primary with
  | .ok text => text
  | .error _ =>
    match secondary with
    | .ok text => text
    | .error _ => generateLocalSummary comments currentAssignmentId

/-- Position invariant: the stored playback position is a whole number
of words between 0 and the word count of the current narration text. -/
def PosInv (s : VoiceState) : Prop :=
  ∃ n : ℕ, s.position2 = 2 * n ∧ n ≤ (jsWords s.currentText).length

/-- Comment-session invariant: while a comment is being recorded, the
main recognition engine has been torn down, nothing is listening on it,
and the dedicated comment engine exists. -/
def RecInv (s : VoiceState) : Prop :=
  s.isRecordingComment = true →
    s.recognition = none ∧ s.isListening = false ∧ s.commentRecognition = true

/-- The ten-word narration text of the pause/resume round-trip scenario. -/
def tenWords : String := "one two three four five six seven eight nine ten"

/-- A run in which a debounced interim command containing "activate"
fires after the wake timer has already deactivated the system: wake up at
0ms, hear interim "activate" at 9000ms, time out at 10000ms, debounce at
10500ms. -/
def staleDebounceTrace : List Event :=
  [Event.startClick, Event.mainResult 0 "" "hey schoology",
   Event.mainResult 9000 "" "activate", Event.wakeTick 10000,
   Event.debounceTick 10500]

/-- The state reached by `staleDebounceTrace`. -/
def staleDebounceState : VoiceState :=
  runEvents (initState "1" none none none) staleDebounceTrace

/-- A run that wakes the system and enters the comment session. -/
def commentEntryTrace : List Event :=
  [Event.startClick, Event.mainResult 0 "" "hey schoology",
   Event.mainResult 1000 "add comment" ""]

/-- The state reached by `commentEntryTrace`. -/
def commentEntryState : VoiceState :=
  runEvents (initState "1" none none none) commentEntryTrace

/-- The state after dictating one comment and saying the stop phrase. -/
def commentExitState : VoiceState :=
  runEvents commentEntryState
    [Event.commentResult 2000 "nice work" "",
     Event.commentResult 3000 "stop comment" ""]

lemma prefixL_trans : ∀ (p q l : List Char),
    prefixL p q = true → prefixL q l = true → prefixL p l = true := by
  intro p
  induction p with
  | nil => intro q l _ _; rfl
  | cons a as ih =>
    intro q l hpq hql
    cases q with
    | nil => simp [prefixL] at hpq
    | cons b bs =>
      cases l with
      | nil => simp [prefixL] at hql
      | cons c cs =>
        simp only [prefixL, Bool.and_eq_true, beq_iff_eq] at hpq hql ⊢
        exact ⟨hpq.1.trans hql.1, ih bs cs hpq.2 hql.2⟩

lemma containsL_mono (p q : List Char) :
    ∀ l, prefixL p q = true → containsL q l = true → containsL p l = true := by
  intro l hpq
  induction l with
  | nil =>
    intro h
    exact prefixL_trans p q [] hpq h
  | cons b bs ih =>
    intro h
    simp only [containsL, Bool.or_eq_true] at h ⊢
    cases h with
    | inl h => exact Or.inl (prefixL_trans p q (b :: bs) hpq h)
    | inr h => exact Or.inr (ih h)

lemma includes_mono (s p q : String) (hpq : prefixL p.data q.data = true)
    (h : includes s q = true) : includes s p = true :=
  containsL_mono p.data q.data s.data hpq h

lemma wordRateEst_eq_floor (startTime now : Nat) :
    ((wordRateEst startTime now : ℤ) : ℚ) =
      (⌊((now - startTime : Nat) : ℚ) / 1000 * (5 / 2)⌋ : ℤ) := by
  have h1 : ((now - startTime : Nat) : ℚ) / 1000 * (5 / 2) =
      ((now - startTime : Nat) : ℚ) / ((400 : ℕ) : ℚ) := by
    push_cast
    ring
  rw [h1, Rat.floor_natCast_div_natCast]
  simp only [wordRateEst]
  push_cast [Int.ofNat_div]
  norm_num

lemma posInv_startSpeaking (s : VoiceState) (now : Nat) (text : String) :
    PosInv (startSpeaking s now text) :=
  ⟨0, rfl, Nat.zero_le _⟩

lemma posInv_pauseSpeaking (s : VoiceState) (now : Nat) (h : PosInv s) :
    PosInv (pauseSpeaking s now) := by
  unfold pauseSpeaking
  split
  · refine ⟨min (wordRateEst s.speechStartTime now) (jsWords s.currentText).length,
      ?_, min_le_right _ _⟩
    show min (2 * wordRateEst s.speechStartTime now)
      (2 * (jsWords s.currentText).length) = _
    omega
  · exact h

lemma posInv_resumeSpeaking (s : VoiceState) (now : Nat) (h : PosInv s) :
    PosInv (resumeSpeaking s now) := by
  simp only [resumeSpeaking]
  split
  · split
    · exact ⟨0, rfl, Nat.zero_le _⟩
    · exact h
  · split
    · exact ⟨0, rfl, Nat.zero_le _⟩
    · exact h

lemma posInv_skipSeconds (s : VoiceState) (now : Nat) (seconds : Int)
    (h : PosInv s) : PosInv (skipSeconds s now seconds) := by
  simp only [skipSeconds]
  split
  · exact ⟨0, rfl, Nat.zero_le _⟩
  · exact h

lemma posInv_stopSpeaking (s : VoiceState) :
    PosInv (stopSpeaking s) :=
  ⟨0, rfl, Nat.zero_le _⟩

lemma posInv_speakText (s : VoiceState) (now : Nat) (h : PosInv s) :
    PosInv (speakText s now) := by
  simp only [speakText]
  split
  · split
    · exact ⟨0, rfl, Nat.zero_le _⟩
    · exact h
  · exact h

lemma posInv_addComment (s : VoiceState) (now : Nat) (h : PosInv s) :
    PosInv (addComment s now) := by
  simp only [addComment]
  split
  · exact posInv_pauseSpeaking s now h
  · exact h

lemma posInv_stopCommentAndSave (s : VoiceState) (now : Nat) (h : PosInv s) :
    PosInv (stopCommentAndSave s now) := by
  simp only [stopCommentAndSave, saveComment, initializeVoiceRecognition,
    startListening]
  split
  · split
    · exact h
    · exact h
  · split
    · exact h
    · exact h

lemma posInv_applyAction (s : VoiceState) (now : Nat) (a : Action)
    (h : PosInv s) : PosInv (applyAction s now a) := by
  cases a with
  | speakText => exact posInv_speakText s now h
  | pause => exact posInv_pauseSpeaking s now h
  | resume => exact posInv_resumeSpeaking s now h
  | skip n => exact posInv_skipSeconds s now n h
  | summarizeComments => exact h
  | addComment => exact posInv_addComment s now h
  | showComments => exact h
  | clearComments => exact h
  | reloadComments => exact h
  | wake => exact h
  | sleep => exact h
  | unknown => exact h
  | _ => exact h

lemma posInv_processVoiceCommand (s : VoiceState) (now : Nat) (command : String)
    (h : PosInv s) : PosInv (processVoiceCommand s now command) := by
  simp only [processVoiceCommand]
  split
  · split
    · exact h
    · exact h
  · exact posInv_applyAction _ now _ h

lemma posInv_resetWakeTimeoutIfSet (s : VoiceState) (now : Nat) (h : PosInv s) :
    PosInv (resetWakeTimeoutIfSet s now) := by
  simp only [resetWakeTimeoutIfSet]
  split
  · exact h
  · exact h

lemma posInv_mainOnResult (s : VoiceState) (now : Nat) (f i : String)
    (h : PosInv s) : PosInv (mainOnResult s now f i) := by
  simp only [mainOnResult]
  split
  · exact h
  · split
    · exact h
    · split
      · exact posInv_resetWakeTimeoutIfSet _ now (posInv_processVoiceCommand s now _ h)
      · split
        · split
          · exact posInv_resetWakeTimeoutIfSet _ now
              (posInv_processVoiceCommand _ now _ h)
          · exact h
        · exact h

lemma posInv_debounceFire (s : VoiceState) (now : Nat) (h : PosInv s) :
    PosInv (debounceFire s now) := by
  simp only [debounceFire]
  split
  · exact posInv_resetWakeTimeoutIfSet _ now
      (posInv_processVoiceCommand _ now _ h)
  · exact h

lemma posInv_commentOnResult (s : VoiceState) (now : Nat) (f i : String)
    (h : PosInv s) : PosInv (commentOnResult s now f i) := by
  simp only [commentOnResult]
  split
  · split
    · exact posInv_stopCommentAndSave s now h
    · exact h
  · split
    · exact h
    · exact h

lemma posInv_startListening (s : VoiceState) (h : PosInv s) :
    PosInv (startListening s) := by
  simp only [startListening]
  split
  · exact h
  · split
    · exact h
    · exact h

lemma posInv_step (s : VoiceState) (e : Event) (h : PosInv s) :
    PosInv (step s e) := by
  cases e with
  | startClick => exact posInv_startListening s h
  | stopClick => exact h
  | mainResult now f i =>
    simp only [step]
    split
    · exact posInv_mainOnResult s now f i h
    · exact h
  | commentResult now f i =>
    simp only [step]
    split
    · exact posInv_commentOnResult s now f i h
    · exact h
  | wakeTick now =>
    simp only [step]
    split
    · exact h
    · exact h
  | debounceTick now =>
    simp only [step]
    split
    · exact posInv_debounceFire s now h
    · exact h
  | ttsPauseClick now => exact posInv_pauseSpeaking s now h
  | ttsResumeClick now => exact posInv_resumeSpeaking s now h
  | ttsSkipForwardClick now => exact posInv_skipSeconds s now 10 h
  | ttsSkipBackClick now => exact posInv_skipSeconds s now (-10) h
  | ttsStopClick => exact posInv_stopSpeaking s

lemma posInv_runEvents (s : VoiceState) (es : List Event) (h : PosInv s) :
    PosInv (runEvents s es) := by
  induction es generalizing s with
  | nil => exact h
  | cons e es ih => exact ih (step s e) (posInv_step s e h)

lemma posInv_initState (assignmentId : String) (fileName text : Option String)
    (storage0 : Option (List CommentRecord)) :
    PosInv (initState assignmentId fileName text storage0) :=
  ⟨0, rfl, Nat.zero_le _⟩

lemma posInv_reachable (s : VoiceState) (h : Reachable s) : PosInv s := by
  obtain ⟨aid, fn, tx, st, es, rfl⟩ := h
  exact posInv_runEvents _ es (posInv_initState aid fn tx st)

lemma recording_stopCommentAndSave (s : VoiceState) (now : Nat) :
    (stopCommentAndSave s now).isRecordingComment = false := by
  simp only [stopCommentAndSave, saveComment, initializeVoiceRecognition,
    startListening]
  split <;> split <;> rfl

lemma recInv_stopCommentAndSave (s : VoiceState) (now : Nat) :
    RecInv (stopCommentAndSave s now) := by
  intro hr
  rw [recording_stopCommentAndSave s now] at hr
  exact absurd hr (by simp)

lemma recInv_addComment (s : VoiceState) (now : Nat) :
    RecInv (addComment s now) :=
  fun _ => ⟨rfl, rfl, rfl⟩

lemma recInv_pauseSpeaking (s : VoiceState) (now : Nat) (h : RecInv s) :
    RecInv (pauseSpeaking s now) := by
  simp only [pauseSpeaking]
  split
  · exact h
  · exact h

lemma recInv_resumeSpeaking (s : VoiceState) (now : Nat) (h : RecInv s) :
    RecInv (resumeSpeaking s now) := by
  simp only [resumeSpeaking]
  split
  · split
    · exact h
    · exact h
  · split
    · exact h
    · exact h

lemma recInv_skipSeconds (s : VoiceState) (now : Nat) (seconds : Int)
    (h : RecInv s) : RecInv (skipSeconds s now seconds) := by
  simp only [skipSeconds]
  split
  · exact h
  · exact h

lemma recInv_speakText (s : VoiceState) (now : Nat) (h : RecInv s) :
    RecInv (speakText s now) := by
  simp only [speakText]
  split
  · split
    · exact h
    · exact h
  · exact h

lemma recInv_applyAction (s : VoiceState) (now : Nat) (a : Action)
    (h : RecInv s) : RecInv (applyAction s now a) := by
  cases a with
  | speakText => exact recInv_speakText s now h
  | pause => exact recInv_pauseSpeaking s now h
  | resume => exact recInv_resumeSpeaking s now h
  | skip n => exact recInv_skipSeconds s now n h
  | summarizeComments => exact h
  | addComment => exact recInv_addComment s now
  | showComments => exact h
  | clearComments => exact h
  | reloadComments => exact h
  | wake => exact h
  | sleep => exact h
  | unknown => exact h
  | _ => exact h

lemma recInv_processVoiceCommand (s : VoiceState) (now : Nat) (command : String)
    (h : RecInv s) : RecInv (processVoiceCommand s now command) := by
  simp only [processVoiceCommand]
  split
  · split
    · exact h
    · exact h
  · exact recInv_applyAction _ now _ h

lemma recInv_resetWakeTimeoutIfSet (s : VoiceState) (now : Nat) (h : RecInv s) :
    RecInv (resetWakeTimeoutIfSet s now) := by
  simp only [resetWakeTimeoutIfSet]
  split
  · exact h
  · exact h

lemma recInv_mainOnResult (s : VoiceState) (now : Nat) (f i : String)
    (h : RecInv s) : RecInv (mainOnResult s now f i) := by
  simp only [mainOnResult]
  split
  · exact h
  · split
    · exact h
    · split
      · exact recInv_resetWakeTimeoutIfSet _ now
          (recInv_processVoiceCommand s now _ h)
      · split
        · split
          · exact recInv_resetWakeTimeoutIfSet _ now
              (recInv_processVoiceCommand _ now _ h)
          · exact h
        · exact h

lemma recInv_debounceFire (s : VoiceState) (now : Nat) (h : RecInv s) :
    RecInv (debounceFire s now) := by
  simp only [debounceFire]
  split
  · exact recInv_resetWakeTimeoutIfSet _ now
      (recInv_processVoiceCommand _ now _ h)
  · exact h

lemma recInv_commentOnResult (s : VoiceState) (now : Nat) (f i : String)
    (h : RecInv s) : RecInv (commentOnResult s now f i) := by
  simp only [commentOnResult]
  split
  · split
    · exact recInv_stopCommentAndSave s now
    · exact h
  · split
    · exact h
    · exact h

lemma recInv_startListening (s : VoiceState) (h : RecInv s) :
    RecInv (startListening s) := by
  simp only [startListening]
  split
  · exact h
  · split
    · exact h
    · intro hr
      rename_i heq _
      exact absurd (h hr).1 (by rw [heq]; simp)

lemma recInv_step (s : VoiceState) (e : Event) (h : RecInv s) :
    RecInv (step s e) := by
  cases e with
  | startClick => exact recInv_startListening s h
  | stopClick =>
    intro hr
    exact ⟨(h hr).1, rfl, (h hr).2.2⟩
  | mainResult now f i =>
    simp only [step]
    split
    · exact recInv_mainOnResult s now f i h
    · exact h
  | commentResult now f i =>
    simp only [step]
    split
    · exact recInv_commentOnResult s now f i h
    · exact h
  | wakeTick now =>
    simp only [step]
    split
    · exact h
    · exact h
  | debounceTick now =>
    simp only [step]
    split
    · exact recInv_debounceFire s now h
    · exact h
  | ttsPauseClick now => exact recInv_pauseSpeaking s now h
  | ttsResumeClick now => exact recInv_resumeSpeaking s now h
  | ttsSkipForwardClick now => exact recInv_skipSeconds s now 10 h
  | ttsSkipBackClick now => exact recInv_skipSeconds s now (-10) h
  | ttsStopClick => exact h

lemma recInv_runEvents (s : VoiceState) (es : List Event) (h : RecInv s) :
    RecInv (runEvents s es) := by
  induction es generalizing s with
  | nil => exact h
  | cons e es ih => exact ih (step s e) (recInv_step s e h)

lemma recInv_reachable (s : VoiceState) (h : Reachable s) : RecInv s := by
  obtain ⟨aid, fn, tx, st, es, rfl⟩ := h
  refine recInv_runEvents _ es ?_
  intro hr
  exact absurd hr (by simp [initState])

lemma log_pauseSpeaking (s : VoiceState) (now : Nat) :
    (pauseSpeaking s now).dispatchLog = s.dispatchLog := by
  simp only [pauseSpeaking]
  split <;> rfl

lemma log_resumeSpeaking (s : VoiceState) (now : Nat) :
    (resumeSpeaking s now).dispatchLog = s.dispatchLog := by
  simp only [resumeSpeaking]
  split
  · split <;> rfl
  · split <;> rfl

lemma log_skipSeconds (s : VoiceState) (now : Nat) (seconds : Int) :
    (skipSeconds s now seconds).dispatchLog = s.dispatchLog := by
  simp only [skipSeconds]
  split <;> rfl

lemma log_stopCommentAndSave (s : VoiceState) (now : Nat) :
    (stopCommentAndSave s now).dispatchLog = s.dispatchLog := by
  simp only [stopCommentAndSave, saveComment, initializeVoiceRecognition,
    startListening]
  split <;> split <;> rfl

lemma log_commentOnResult (s : VoiceState) (now : Nat) (f i : String) :
    (commentOnResult s now f i).dispatchLog = s.dispatchLog := by
  simp only [commentOnResult]
  split
  · split
    · exact log_stopCommentAndSave s now
    · rfl
  · split <;> rfl

lemma log_processVoiceCommand_recording (s : VoiceState) (now : Nat)
    (command : String) (hr : s.isRecordingComment = true) :
    (processVoiceCommand s now command).dispatchLog = s.dispatchLog ∨
    (processVoiceCommand s now command).dispatchLog =
      s.dispatchLog ++ [Action.endComment] := by
  simp only [processVoiceCommand, hr]
  rw [if_pos trivial]
  split
  · exact Or.inr rfl
  · exact Or.inl rfl

lemma log_debounceFire_recording (s : VoiceState) (now : Nat)
    (hr : s.isRecordingComment = true) :
    (debounceFire s now).dispatchLog = s.dispatchLog ∨
    (debounceFire s now).dispatchLog = s.dispatchLog ++ [Action.endComment] := by
  simp only [debounceFire]
  split
  · have h := log_processVoiceCommand_recording
      { s with commandTimeout := none } now
      ({ s with commandTimeout := none } : VoiceState).lastInterimCommand hr
    simp only [resetWakeTimeoutIfSet]
    split
    · exact h
    · exact h
  · exact Or.inl rfl

lemma ne_empty_of_data_ne {s : String} (h : s.data ≠ []) : s ≠ "" := by
  intro e
  rw [e] at h
  exact h rfl

lemma append_ne_empty_left (a b : String) (h : a.data ≠ []) : a ++ b ≠ "" := by
  apply ne_empty_of_data_ne
  rw [String.data_append]
  simp [h]

/-- C6: while the comment session is recording, no event can dispatch any
command through the router other than the stop-phrase action
(`Action.endComment`, dispatched only for text containing "end comment"),
and a recognized final transcript that does not contain the stop phrase
is accumulated as comment content with nothing dispatched. -/
theorem c6_comment_recording_exclusive :
    ∀ s, Reachable s → s.isRecordingComment = true →
      ((∀ e, (step s e).dispatchLog = s.dispatchLog ∨
          (step s e).dispatchLog = s.dispatchLog ++ [Action.endComment]) ∧
       (∀ now f i, includes (lowerStr (f ++ i)) "stop comment" = false →
          f ≠ "" →
          (step s (Event.commentResult now f i)).commentTranscript =
            s.commentTranscript ++ f ++ " " ∧
          (step s (Event.commentResult now f i)).dispatchLog = s.dispatchLog)) := by
  intro s hreach hr
  obtain ⟨hrec, hlist, hcomm⟩ := recInv_reachable s hreach hr
  constructor
  · intro e
    cases e with
    | startClick => left; simp [step, startListening, hrec]
    | stopClick => left; rfl
    | mainResult now f i => left; simp [step, hrec]
    | commentResult now f i =>
      left
      simp only [step]
      rw [if_pos hcomm]
      exact log_commentOnResult s now f i
    | wakeTick now =>
      left
      simp only [step]
      split
      · rfl
      · rfl
    | debounceTick now =>
      simp only [step]
      split
      · exact log_debounceFire_recording s now hr
      · exact Or.inl rfl
    | ttsPauseClick now => exact Or.inl (log_pauseSpeaking s now)
    | ttsResumeClick now => exact Or.inl (log_resumeSpeaking s now)
    | ttsSkipForwardClick now => exact Or.inl (log_skipSeconds s now 10)
    | ttsSkipBackClick now => exact Or.inl (log_skipSeconds s now (-10))
    | ttsStopClick => exact Or.inl rfl
  · intro now f i hstop hf
    simp only [step]
    rw [if_pos hcomm]
    simp only [commentOnResult]
    rw [if_neg (by simp [hstop])]
    rw [if_pos (bne_iff_ne.mpr hf)]
    exact ⟨rfl, rfl⟩

/-- C6 witness: the reachable state just after "add comment" is
recording; a pause command offered to the torn-down main engine changes
nothing, and a dictated final transcript is buffered without dispatch. -/
theorem c6_comment_recording_exclusive_witness :
    ((step commentEntryState (Event.mainResult 5000 "pause" "")).dispatchLog =
        commentEntryState.dispatchLog ∨
      (step commentEntryState (Event.mainResult 5000 "pause" "")).dispatchLog =
        commentEntryState.dispatchLog ++ [Action.endComment]) ∧
    (step commentEntryState (Event.commentResult 5000 "hello" "")).commentTranscript =
      commentEntryState.commentTranscript ++ "hello" ++ " " ∧
    (step commentEntryState (Event.commentResult 5000 "hello" "")).dispatchLog =
      commentEntryState.dispatchLog := by
  have h := c6_comment_recording_exclusive commentEntryState
    ⟨"1", none, none, none, commentEntryTrace, rfl⟩ (by decide)
  exact ⟨h.1 (Event.mainResult 5000 "pause" ""),
    h.2 5000 "hello" "" (by decide) (by decide)⟩

/-- C1 counterexample: a final transcript containing "skip 5" (and
likewise "skip 15", "forward 5", "forward 15") is routed by the generic
rule to a 10-second skip, not to the specific count the claim states. -/
theorem c1_specific_skip_counterexample :
    routeCommand "skip 5" = Action.skip 10 ∧
    (Action.skip 10 == Action.skip 5) = false ∧
    routeCommand "forward 5" = Action.skip 10 ∧
    routeCommand "skip 15" = Action.skip 10 ∧
    (Action.skip 10 == Action.skip 15) = false ∧
    routeCommand "forward 15" = Action.skip 10 := by
  decide

set_option maxHeartbeats 2000000 in
/-- C1 amended: the generic "skip"/"forward" rule precedes the
specific-count rules, so every command containing "skip 5", "forward 5",
"skip 15" or "forward 15" dispatches a 10-second skip, and no command
string whatsoever can dispatch a 5- or 15-second forward skip. -/
theorem c1_generic_rule_shadows_specific :
    routeCommand "skip 5" = Action.skip 10 ∧
    routeCommand "forward 5" = Action.skip 10 ∧
    routeCommand "skip 15" = Action.skip 10 ∧
    routeCommand "forward 15" = Action.skip 10 ∧
    (∀ command, routeCommand command ≠ Action.skip 5 ∧
      routeCommand command ≠ Action.skip 15) := by
  refine ⟨by decide, by decide, by decide, by decide, ?_⟩
  intro command
  unfold routeCommand
  by_cases h1 : (includes command "download" || includes command "download button") = true
  · rw [if_pos h1]
    exact ⟨by decide, by decide⟩
  rw [if_neg h1]
  by_cases h2 : (includes command "extract" || includes command "read" || includes command "text") = true
  · rw [if_pos h2]
    exact ⟨by decide, by decide⟩
  rw [if_neg h2]
  by_cases h3 : (includes command "ocr" || includes command "scan") = true
  · rw [if_pos h3]
    exact ⟨by decide, by decide⟩
  rw [if_neg h3]
  by_cases h4 : (includes command "speak" || includes command "read aloud" || includes command "play text") = true
  · rw [if_pos h4]
    exact ⟨by decide, by decide⟩
  rw [if_neg h4]
  by_cases h5 : (includes command "pause" || includes command "stop speaking") = true
  · rw [if_pos h5]
    exact ⟨by decide, by decide⟩
  rw [if_neg h5]
  by_cases h6 : (includes command "resume" || includes command "continue" || includes command "play") = true
  · rw [if_pos h6]
    exact ⟨by decide, by decide⟩
  rw [if_neg h6]
  by_cases h7 : (includes command "skip" || includes command "forward") = true
  · rw [if_pos h7]
    exact ⟨by decide, by decide⟩
  rw [if_neg h7]
  by_cases h8 : (includes command "back" || includes command "rewind") = true
  · rw [if_pos h8]
    exact ⟨by decide, by decide⟩
  rw [if_neg h8]
  have h9 : ¬((includes command "skip 5" || includes command "forward 5") = true) := by
    intro hc
    simp only [Bool.or_eq_true] at hc
    rcases hc with h | h
    · exact h7 (by simp only [Bool.or_eq_true] ; exact Or.inl (includes_mono command "skip" "skip 5" (by decide) h))
    · exact h7 (by simp only [Bool.or_eq_true] ; exact Or.inr (includes_mono command "forward" "forward 5" (by decide) h))
  rw [if_neg h9]
  by_cases h10 : (includes command "back 5" || includes command "rewind 5") = true
  · rw [if_pos h10]
    exact ⟨by decide, by decide⟩
  rw [if_neg h10]
  have h11 : ¬((includes command "skip 15" || includes command "forward 15") = true) := by
    intro hc
    simp only [Bool.or_eq_true] at hc
    rcases hc with h | h
    · exact h7 (by simp only [Bool.or_eq_true] ; exact Or.inl (includes_mono command "skip" "skip 15" (by decide) h))
    · exact h7 (by simp only [Bool.or_eq_true] ; exact Or.inr (includes_mono command "forward" "forward 15" (by decide) h))
  rw [if_neg h11]
  by_cases h12 : (includes command "back 15" || includes command "rewind 15") = true
  · rw [if_pos h12]
    exact ⟨by decide, by decide⟩
  rw [if_neg h12]
  by_cases h13 : (includes command "summarize comments" || includes command "summarize comment") = true
  · rw [if_pos h13]
    exact ⟨by decide, by decide⟩
  rw [if_neg h13]
  by_cases h14 : includes command "add comment" = true
  · rw [if_pos h14]
    exact ⟨by decide, by decide⟩
  rw [if_neg h14]
  by_cases h15 : (includes command "show comments" || includes command "view comments") = true
  · rw [if_pos h15]
    exact ⟨by decide, by decide⟩
  rw [if_neg h15]
  by_cases h16 : (includes command "clear comments" || includes command "delete comments") = true
  · rw [if_pos h16]
    exact ⟨by decide, by decide⟩
  rw [if_neg h16]
  by_cases h17 : includes command "add download button" = true
  · rw [if_pos h17]
    exact ⟨by decide, by decide⟩
  rw [if_neg h17]
  by_cases h18 : includes command "add extract button" = true
  · rw [if_pos h18]
    exact ⟨by decide, by decide⟩
  rw [if_neg h18]
  by_cases h19 : includes command "add ocr button" = true
  · rw [if_pos h19]
    exact ⟨by decide, by decide⟩
  rw [if_neg h19]
  by_cases h20 : (includes command "all" && includes command "button") = true
  · rw [if_pos h20]
    exact ⟨by decide, by decide⟩
  rw [if_neg h20]
  by_cases h21 : (includes command "remove" || includes command "clear" || includes command "delete") = true
  · rw [if_pos h21]
    exact ⟨by decide, by decide⟩
  rw [if_neg h21]
  by_cases h22 : (includes command "force download" || includes command "force add download") = true
  · rw [if_pos h22]
    exact ⟨by decide, by decide⟩
  rw [if_neg h22]
  by_cases h23 : (includes command "debug storage" || includes command "check storage") = true
  · rw [if_pos h23]
    exact ⟨by decide, by decide⟩
  rw [if_neg h23]
  by_cases h24 : (includes command "reload comments" || includes command "refresh comments") = true
  · rw [if_pos h24]
    exact ⟨by decide, by decide⟩
  rw [if_neg h24]
  by_cases h25 : (includes command "hey schoology" || includes command "activate" || includes command "wake up") = true
  · rw [if_pos h25]
    exact ⟨by decide, by decide⟩
  rw [if_neg h25]
  by_cases h26 : (includes command "sleep" || includes command "deactivate" || includes command "goodbye") = true
  · rw [if_pos h26]
    exact ⟨by decide, by decide⟩
  rw [if_neg h26]
  by_cases h27 : (includes command "help" || includes command "commands" || includes command "what") = true
  · rw [if_pos h27]
    exact ⟨by decide, by decide⟩
  rw [if_neg h27]
  exact ⟨by decide, by decide⟩

/-- C1 amended witness: the unreachability clause applied to the
concrete command "skip please". -/
theorem c1_generic_rule_shadows_specific_witness :
    (routeCommand "skip please" == Action.skip 5) = false ∧
    (routeCommand "skip please" == Action.skip 15) = false := by
  have h := c1_generic_rule_shadows_specific.2.2.2.2 "skip please"
  exact ⟨beq_eq_false_iff_ne.mpr h.1, beq_eq_false_iff_ne.mpr h.2⟩

/-- C10: clearing one assignment removes exactly the comments with that
assignment id: none remain, every comment of another assignment is kept
with identical field values and unchanged relative order (the result is a
sublist of the original), and the result is flushed to storage. -/
theorem c10_clear_assignment_frame :
    ∀ s aid,
      (∀ c ∈ (clearCommentsForAssignment s aid).comments, c.assignmentId ≠ aid) ∧
      (∀ c ∈ s.comments, c.assignmentId ≠ aid →
        c ∈ (clearCommentsForAssignment s aid).comments) ∧
      List.Sublist (clearCommentsForAssignment s aid).comments s.comments ∧
      (clearCommentsForAssignment s aid).storage =
        some (clearCommentsForAssignment s aid).comments := by
  intro s aid
  refine ⟨?_, ?_, ?_, rfl⟩
  · intro c hc
    have := (List.mem_filter.mp hc).2
    exact bne_iff_ne.mp this
  · intro c hc hne
    exact List.mem_filter.mpr ⟨hc, bne_iff_ne.mpr hne⟩
  · exact List.filter_sublist s.comments

/-- C10 witness: clearing assignment "1" from a two-assignment list. -/
theorem c10_clear_assignment_frame_witness :
    (⟨2, "keep", 0, 2, "f", "2"⟩ : CommentRecord) ∈
      (clearCommentsForAssignment
        { initState "1" none none none with
            comments := [⟨1, "drop", 0, 1, "f", "1"⟩, ⟨2, "keep", 0, 2, "f", "2"⟩] }
        "1").comments ∧
    (clearCommentsForAssignment
        { initState "1" none none none with
            comments := [⟨1, "drop", 0, 1, "f", "1"⟩, ⟨2, "keep", 0, 2, "f", "2"⟩] }
        "1").storage =
      some (clearCommentsForAssignment
        { initState "1" none none none with
            comments := [⟨1, "drop", 0, 1, "f", "1"⟩, ⟨2, "keep", 0, 2, "f", "2"⟩] }
        "1").comments := by
  have h := c10_clear_assignment_frame
    { initState "1" none none none with
        comments := [⟨1, "drop", 0, 1, "f", "1"⟩, ⟨2, "keep", 0, 2, "f", "2"⟩] }
    "1"
  exact ⟨h.2.1 ⟨2, "keep", 0, 2, "f", "2"⟩ (by decide) (by decide), h.2.2.2⟩

lemma foldl_saveComment_comments :
    ∀ (saves : List (Nat × String)) (s : VoiceState),
      (saves.foldl (fun t p => saveComment t p.1 p.2) s).comments =
        s.comments ++ saves.map (fun p => mkSavedComment s p.1 p.2) := by
  intro saves
  induction saves with
  | nil => intro s; simp
  | cons p ps ih =>
    intro s
    simp only [List.foldl_cons, List.map_cons]
    rw [ih]
    have hmk : ∀ m u, mkSavedComment (saveComment s p.1 p.2) m u =
        mkSavedComment s m u := fun _ _ => rfl
    simp only [hmk]
    show (s.comments ++ [mkSavedComment s p.1 p.2]) ++ _ = _
    simp

lemma foldl_saveComment_sync :
    ∀ (saves : List (Nat × String)) (s : VoiceState),
      s.storage = some s.comments →
      (saves.foldl (fun t p => saveComment t p.1 p.2) s).storage =
        some (saves.foldl (fun t p => saveComment t p.1 p.2) s).comments := by
  intro saves
  induction saves with
  | nil => intro s h; exact h
  | cons p ps ih =>
    intro s _
    simp only [List.foldl_cons]
    exact ih (saveComment s p.1 p.2) rfl

/-- C9: every mutation (add, delete, clear) flushes the whole comment
list to storage, and saving a sequence of comments from a fresh store and
then reloading returns exactly those records, in save order, with every
field unchanged. -/
theorem c9_comment_persistence :
    (∀ s now text,
      (saveComment s now text).comments = s.comments ++ [mkSavedComment s now text] ∧
      (saveComment s now text).storage = some (saveComment s now text).comments) ∧
    (∀ s commentId, (deleteComment s commentId).storage =
      some (deleteComment s commentId).comments) ∧
    (∀ s, (clearComments s).storage = some (clearComments s).comments) ∧
    (∀ s (saves : List (Nat × String)),
      s.comments = [] → s.storage = some [] →
      (loadCommentsFromStorage
          (saves.foldl (fun t p => saveComment t p.1 p.2) s)).comments =
        saves.map (fun p => mkSavedComment s p.1 p.2) ∧
      (saves.foldl (fun t p => saveComment t p.1 p.2) s).comments =
        saves.map (fun p => mkSavedComment s p.1 p.2)) := by
  refine ⟨fun s now text => ⟨rfl, rfl⟩, fun s commentId => rfl, fun s => rfl, ?_⟩
  intro s saves hc hs
  have hsync := foldl_saveComment_sync saves s (by rw [hs, hc])
  have hcomm := foldl_saveComment_comments saves s
  rw [hc] at hcomm
  simp only [List.nil_append] at hcomm
  constructor
  · simp only [loadCommentsFromStorage, hsync]
    simpa using hcomm
  · exact hcomm

/-- C9 witness: two saves from a fresh store reload in order. -/
theorem c9_comment_persistence_witness :
    (loadCommentsFromStorage
        ([(10, "first"), (20, "second")].foldl
          (fun t p => saveComment t p.1 p.2)
          (initState "1" none none (some [])))).comments =
      [(10, "first"), (20, "second")].map
        (fun p => mkSavedComment (initState "1" none none (some [])) p.1 p.2) := by
  exact (c9_comment_persistence.2.2.2 (initState "1" none none (some []))
    [(10, "first"), (20, "second")] rfl (by decide)).1

lemma data_ne_of_ne_empty {s : String} (h : s ≠ "") : s.data ≠ [] := by
  intro hnil
  apply h
  cases s with
  | mk d =>
    have hd : d = [] := hnil
    rw [hd]

lemma length_pos_of_ne_empty (s : String) (h : s ≠ "") : 0 < s.length := by
  have := data_ne_of_ne_empty h
  show 0 < s.data.length
  exact List.length_pos.mpr this

/-- C7: for every input routed to the PDF branch of `extractText`, native
text-layer extraction is consulted first and kept when it yields at least
10 trimmed characters; a shorter native result falls back to the OCR
result exactly when the latter is non-empty; and with both engines
failing (empty results) the orchestrator degrades to the empty string
without raising. -/
theorem c7_extraction_fallback :
    (∀ fileName blobType pdfResult ocrResult,
      imageExtensions.contains (jsFileExtension fileName) = false →
      jsStartsWith blobType "image/" = false →
      (jsFileExtension fileName = "pdf" ∨ blobType = "application/pdf") →
      ((10 ≤ (jsTrim pdfResult).length →
          extractText fileName blobType pdfResult ocrResult = pdfResult) ∧
       ((jsTrim pdfResult).length < 10 → jsTrim ocrResult = ocrResult →
          extractText fileName blobType pdfResult ocrResult =
            if ocrResult = "" then pdfResult else ocrResult))) ∧
    (∀ fileName blobType, extractText fileName blobType "" "" = "") := by
  constructor
  · intro fileName blobType pdfResult ocrResult himg hblob hpdf
    have hcond : (jsFileExtension fileName == "pdf" ||
        blobType == "application/pdf") = true := by
      rcases hpdf with h | h <;> simp [h]
    have himgcond : (imageExtensions.contains (jsFileExtension fileName) ||
        jsStartsWith blobType "image/") = false := by
      rw [himg, hblob]
      rfl
    constructor
    · intro hlen
      have hne : (pdfResult == "") = false := by
        rcases hbeq : pdfResult == "" with _ | _
        · rfl
        · exfalso
          have he : pdfResult = "" := eq_of_beq hbeq
          rw [he] at hlen
          exact absurd hlen (by decide)
      simp only [extractText]
      rw [himgcond, if_neg (by decide), hcond, if_pos rfl]
      rw [hne, decide_eq_false (not_lt.mpr hlen), if_neg (by decide)]
    · intro hlen htrim
      have hlt : decide ((jsTrim pdfResult).length < 10) = true :=
        decide_eq_true hlen
      by_cases hocr : ocrResult = ""
      · subst hocr
        simp only [extractText]
        rw [himgcond, if_neg (by decide), hcond, if_pos rfl]
        rw [hlt, Bool.or_true, if_pos rfl, if_neg (by decide)]
        simp
      · have hbne : (ocrResult != "") = true := bne_iff_ne.mpr hocr
        have hoclen : 0 < (jsTrim ocrResult).length := by
          rw [htrim]
          exact length_pos_of_ne_empty ocrResult hocr
        simp only [extractText]
        rw [himgcond, if_neg (by decide), hcond, if_pos rfl]
        rw [hlt, Bool.or_true, if_pos rfl, hbne, decide_eq_true hoclen,
          if_pos (by decide), if_neg hocr]
  · intro fileName blobType
    simp only [extractText]
    split
    · rfl
    · split
      · decide
      · rfl

/-- C7 witness: a PDF whose native layer yields 5 characters falls back
to a non-empty OCR result, and one with a long native layer keeps it. -/
theorem c7_extraction_fallback_witness :
    extractText "scan.pdf" "application/pdf" "tiny!" "recovered text" =
      (if ("recovered text" : String) = "" then "tiny!" else "recovered text") ∧
    extractText "scan.pdf" "application/pdf" "a long native layer" "ocr" =
      "a long native layer" ∧
    extractText "scan.pdf" "application/pdf" "" "" = "" := by
  have h := (c7_extraction_fallback.1 "scan.pdf" "application/pdf"
    "tiny!" "recovered text" (by decide) (by decide) (Or.inl (by decide)))
  have h2 := (c7_extraction_fallback.1 "scan.pdf" "application/pdf"
    "a long native layer" "ocr" (by decide) (by decide) (Or.inl (by decide)))
  exact ⟨h.2 (by decide) (by decide), h2.1 (by decide),
    c7_extraction_fallback.2 "scan.pdf" "application/pdf"⟩

lemma length_dropWhile_le (p : Char → Bool) (l : List Char) :
    (l.dropWhile p).length ≤ l.length := by
  induction l with
  | nil => simp [List.dropWhile]
  | cons a l ih =>
    rw [List.dropWhile_cons]
    split
    · exact ih.trans (Nat.le_succ _)
    · exact le_refl _

lemma jsTrim_length_le (s : String) : (jsTrim s).length ≤ s.length := by
  show (trimList s.data).length ≤ s.data.length
  unfold trimList
  have h1 : ((s.data.dropWhile wsChar).reverse.dropWhile wsChar).length ≤
      (s.data.dropWhile wsChar).reverse.length := length_dropWhile_le _ _
  have h2 : (s.data.dropWhile wsChar).length ≤ s.data.length :=
    length_dropWhile_le _ _
  simp only [List.length_reverse] at *
  omega

lemma lowerStr_length (s : String) : (lowerStr s).length = s.length := by
  show (s.data.map Char.toLower).length = s.data.length
  simp

lemma raw_ne_nil_of_trim_lower (raw : String)
    (h : 10 < (jsTrim (lowerStr raw)).length) : raw.data ≠ [] := by
  intro hnil
  have hr : raw = "" := by
    cases raw with
    | mk d =>
      have hd : d = [] := hnil
      rw [hd]
  rw [hr] at h
  exact absurd h (by decide)

lemma append3_ne_empty (pre mid post : String) (h : pre.data ≠ []) :
    pre ++ mid ++ post ≠ "" := by
  apply ne_empty_of_data_ne
  rw [String.data_append, String.data_append]
  intro hnil
  rw [List.append_eq_nil, List.append_eq_nil] at hnil
  exact h hnil.1.1

lemma convertComment_ne_empty (raw : String) : convertComment raw ≠ "" := by
  simp only [convertComment]
  split_ifs with h1 h2 h3 h4 h5 h6 h7 h8
  · decide
  · decide
  · decide
  · decide
  · decide
  · decide
  · decide
  · simp only [Bool.and_eq_true, decide_eq_true_eq] at h8
    have hne := raw_ne_nil_of_trim_lower raw h8.1
    cases raw with
    | mk d =>
      cases d with
      | nil => exact absurd rfl hne
      | cons c cs =>
        apply ne_empty_of_data_ne
        simp [capitalizeFirst]
  · exact append3_ne_empty "Please " (lowerStr raw) "." (by decide)

/-- C8: with the primary and the secondary API both failing, summarize
returns exactly the local deterministic generator result, which is never
empty when at least one comment exists for the current assignment; the
local generator uses the single-comment, two-comment and many-comment
joining templates according to the comment count. -/
theorem c8_summarization_fallback :
    ∀ e1 e2 comments aid,
      1 ≤ (comments.filter (fun c => c.assignmentId == aid)).length →
      (callGeminiAPI (Except.error e1) (Except.error e2) comments aid =
          generateLocalSummary comments aid ∧
        generateLocalSummary comments aid ≠ "" ∧
        (∀ c, comments.filter (fun c => c.assignmentId == aid) = [c] →
          generateLocalSummary comments aid = convertComment c.text) ∧
        (∀ c1 c2, comments.filter (fun c => c.assignmentId == aid) = [c1, c2] →
          generateLocalSummary comments aid =
            convertComment c1.text ++ " Additionally, " ++
              lowerStr (convertComment c2.text)) ∧
        (3 ≤ (comments.filter (fun c => c.assignmentId == aid)).length →
          generateLocalSummary comments aid =
            "I have reviewed your assignment and have several areas for improvement. " ++
              joinWords (((comments.filter (fun c => c.assignmentId == aid)).map
                (fun c => convertComment c.text)).dropLast) ++ " " ++ "Finally, " ++
              lowerStr (((comments.filter (fun c => c.assignmentId == aid)).map
                (fun c => convertComment c.text)).getLastD ""))) := by
  intro e1 e2 comments aid hn
  have t1 : ∀ c, comments.filter (fun c => c.assignmentId == aid) = [c] →
      generateLocalSummary comments aid = convertComment c.text := by
    intro c hfil
    simp [generateLocalSummary, hfil]
  have t2 : ∀ c1 c2, comments.filter (fun c => c.assignmentId == aid) = [c1, c2] →
      generateLocalSummary comments aid =
        convertComment c1.text ++ " Additionally, " ++
          lowerStr (convertComment c2.text) := by
    intro c1 c2 hfil
    simp [generateLocalSummary, hfil]
  have t3 : 3 ≤ (comments.filter (fun c => c.assignmentId == aid)).length →
      generateLocalSummary comments aid =
        "I have reviewed your assignment and have several areas for improvement. " ++
          joinWords (((comments.filter (fun c => c.assignmentId == aid)).map
            (fun c => convertComment c.text)).dropLast) ++ " " ++ "Finally, " ++
          lowerStr (((comments.filter (fun c => c.assignmentId == aid)).map
            (fun c => convertComment c.text)).getLastD "") := by
    intro h3
    have h0 : ((comments.filter (fun c => c.assignmentId == aid)).length == 0) =
        false := beq_eq_false_iff_ne.mpr (by omega)
    have h1 : ((comments.filter (fun c => c.assignmentId == aid)).length == 1) =
        false := beq_eq_false_iff_ne.mpr (by omega)
    have h2 : ((comments.filter (fun c => c.assignmentId == aid)).length == 2) =
        false := beq_eq_false_iff_ne.mpr (by omega)
    simp [generateLocalSummary, h0, h1, h2]
  refine ⟨rfl, ?_, t1, t2, t3⟩
  rcases hfil : comments.filter (fun c => c.assignmentId == aid) with _ | ⟨c, rest⟩
  · rw [hfil] at hn
    exact absurd hn (by decide)
  · rcases rest with _ | ⟨c2, rest2⟩
    · rw [t1 c hfil]
      exact convertComment_ne_empty c.text
    · rcases rest2 with _ | ⟨c3, rest3⟩
      · rw [t2 c c2 hfil]
        exact append3_ne_empty (convertComment c.text) " Additionally, "
          (lowerStr (convertComment c2.text))
          (data_ne_of_ne_empty (convertComment_ne_empty c.text))
      · rw [t3 (by rw [hfil]; simp)]
        apply ne_empty_of_data_ne
        rw [String.data_append, String.data_append, String.data_append,
          String.data_append]
        intro hnil
        rw [List.append_eq_nil, List.append_eq_nil, List.append_eq_nil,
          List.append_eq_nil] at hnil
        exact absurd hnil.1.1.1.1 (by decide)

/-- C8 witness: a one-comment list with both external APIs failing
produces the local canned sentence for a grammar remark. -/
theorem c8_summarization_fallback_witness :
    callGeminiAPI (Except.error "http 500") (Except.error "http 429")
        [⟨1, "grammar", 0, 1, "f.pdf", "77"⟩] "77" =
      generateLocalSummary [⟨1, "grammar", 0, 1, "f.pdf", "77"⟩] "77" ∧
    (generateLocalSummary [⟨1, "grammar", 0, 1, "f.pdf", "77"⟩] "77" == "") =
      false ∧
    generateLocalSummary [⟨1, "grammar", 0, 1, "f.pdf", "77"⟩] "77" =
      convertComment "grammar" := by
  have h := c8_summarization_fallback "http 500" "http 429"
    [⟨1, "grammar", 0, 1, "f.pdf", "77"⟩] "77" (by decide)
  exact ⟨h.1, beq_eq_false_iff_ne.mpr h.2.1,
    h.2.2.1 ⟨1, "grammar", 0, 1, "f.pdf", "77"⟩ (by decide)⟩

/-- C2: pause is effective exactly when speaking and not paused, setting
the position to the elapsed-time estimate clamped at the word count and
flipping the flags; otherwise it changes nothing except a visible
"cannot pause" status.  On the ten-word text spoken from time 0 and
paused at 2000 ms the position is word 5, and resuming then speaks
exactly the suffix "six seven eight nine ten". -/
theorem c2_pause_semantics :
    (∀ s now, s.isSpeaking = true → s.isPaused = false →
      positionWords (pauseSpeaking s now) =
        min ((⌊((now - s.speechStartTime : ℕ) : ℚ) / 1000 * (5 / 2)⌋ : ℤ) : ℚ)
          ((jsWords s.currentText).length : ℚ) ∧
      (pauseSpeaking s now).isPaused = true ∧
      (pauseSpeaking s now).isSpeaking = false ∧
      (pauseSpeaking s now).currentText = s.currentText) ∧
    (∀ s now, ¬(s.isSpeaking = true ∧ s.isPaused = false) →
      (pauseSpeaking s now).position2 = s.position2 ∧
      (pauseSpeaking s now).isSpeaking = s.isSpeaking ∧
      (pauseSpeaking s now).isPaused = s.isPaused ∧
      (pauseSpeaking s now).lastStatus = "Cannot pause - not speaking") ∧
    (positionWords (pauseSpeaking
        (startSpeaking (initState "1" none none none) 0 tenWords) 2000) = 5 ∧
      (resumeSpeaking (pauseSpeaking
          (startSpeaking (initState "1" none none none) 0 tenWords) 2000)
        2500).currentText = "six seven eight nine ten" ∧
      (resumeSpeaking (pauseSpeaking
          (startSpeaking (initState "1" none none none) 0 tenWords) 2000)
        2500).isSpeaking = true) := by
  refine ⟨?_, ?_, ?_, ?_, ?_⟩
  · intro s now hs hp
    have hpos : (pauseSpeaking s now).position2 =
        min (2 * wordRateEst s.speechStartTime now)
          (2 * (jsWords s.currentText).length) := by
      simp [pauseSpeaking, hs, hp]
    have hmin : min (2 * wordRateEst s.speechStartTime now)
        (2 * (jsWords s.currentText).length) =
        2 * min (wordRateEst s.speechStartTime now)
          ((jsWords s.currentText).length) := by
      omega
    refine ⟨?_, by simp [pauseSpeaking, hs, hp], by simp [pauseSpeaking, hs, hp],
      by simp [pauseSpeaking, hs, hp]⟩
    simp only [positionWords]
    rw [hpos, hmin, ← wordRateEst_eq_floor]
    push_cast [Nat.cast_min]
    ring
  · intro s now hno
    have hcond : (s.isSpeaking && !s.isPaused) = false := by
      cases hS : s.isSpeaking
      · simp
      · cases hP : s.isPaused
        · exact absurd ⟨hS, hP⟩ hno
        · simp
    simp only [pauseSpeaking]
    rw [if_neg (by simp [hcond])]
    exact ⟨rfl, rfl, rfl, rfl⟩
  · have h10 : (pauseSpeaking
        (startSpeaking (initState "1" none none none) 0 tenWords)
        2000).position2 = 10 := by decide
    simp only [positionWords, h10]
    norm_num
  · decide
  · decide

/-- C2 witness: the effective-pause clause applied to the concrete
ten-word narration paused at 2000 ms. -/
theorem c2_pause_semantics_witness :
    (pauseSpeaking (startSpeaking (initState "1" none none none) 0 tenWords)
        2000).isPaused = true ∧
    (pauseSpeaking (startSpeaking (initState "1" none none none) 0 tenWords)
        2000).isSpeaking = false ∧
    (pauseSpeaking (startSpeaking (initState "1" none none none) 0 tenWords)
        2000).currentText =
      (startSpeaking (initState "1" none none none) 0 tenWords).currentText := by
  have h := c2_pause_semantics.1
    (startSpeaking (initState "1" none none none) 0 tenWords) 2000 rfl rfl
  exact ⟨h.2.1, h.2.2.1, h.2.2.2⟩

/-- C3: in every reachable state the playback position is a whole number
of words between 0 and the word count of the current text; this is
preserved by pause and by skip with any argument; a forward skip clamps
the computed position at the word count (in half-word units, `2 * len`)
and a backward skip past the start clamps it at 0. -/
theorem c3_position_invariant :
    (∀ s, Reachable s →
      ∃ n : ℕ, positionWords s = (n : ℚ) ∧ n ≤ (jsWords s.currentText).length) ∧
    (∀ s now seconds, PosInv s →
      PosInv (pauseSpeaking s now) ∧ PosInv (skipSeconds s now seconds)) ∧
    (∀ pos2 len : ℕ, ∀ seconds : Int, 0 < seconds →
      skipTarget2 pos2 len seconds ≤ 2 * len ∧
      (2 * len ≤ pos2 + seconds.natAbs * 5 →
        skipTarget2 pos2 len seconds = 2 * len)) ∧
    (∀ pos2 len : ℕ, ∀ seconds : Int, ¬(0 < seconds) →
      pos2 ≤ seconds.natAbs * 5 → skipTarget2 pos2 len seconds = 0) := by
  refine ⟨?_, ?_, ?_, ?_⟩
  · intro s hs
    obtain ⟨n, h1, h2⟩ := posInv_reachable s hs
    refine ⟨n, ?_, h2⟩
    simp only [positionWords, h1]
    push_cast
    ring
  · intro s now seconds h
    exact ⟨posInv_pauseSpeaking s now h, posInv_skipSeconds s now seconds h⟩
  · intro pos2 len seconds hpos
    constructor
    · simp only [skipTarget2, if_pos hpos]
      exact min_le_right _ _
    · intro hle
      simp only [skipTarget2, if_pos hpos]
      omega
  · intro pos2 len seconds hneg hle
    simp only [skipTarget2, if_neg hneg]
    omega

/-- C3 witness: the invariant at the initial state, invariance under a
pause and a 5-second skip, and the two clamping clauses at concrete
positions. -/
theorem c3_position_invariant_witness :
    (PosInv (pauseSpeaking (initState "1" none none none) 400) ∧
      PosInv (skipSeconds (initState "1" none none none) 400 5)) ∧
    skipTarget2 0 3 10 ≤ 2 * 3 ∧
    skipTarget2 0 3 10 = 2 * 3 ∧
    skipTarget2 20 3 (-10) = 0 := by
  refine ⟨?_, ?_, ?_, ?_⟩
  · exact c3_position_invariant.2.1 (initState "1" none none none) 400 5
      ⟨0, rfl, Nat.zero_le _⟩
  · exact (c3_position_invariant.2.2.1 0 3 10 (by decide)).1
  · exact (c3_position_invariant.2.2.1 0 3 10 (by decide)).2 (by decide)
  · exact c3_position_invariant.2.2.2 20 3 (-10) (by decide) (by decide)

lemma isAwake_pauseSpeaking (s : VoiceState) (now : Nat) :
    (pauseSpeaking s now).isAwake = s.isAwake := by
  simp only [pauseSpeaking]
  split <;> rfl

lemma wakeTimeout_pauseSpeaking (s : VoiceState) (now : Nat) :
    (pauseSpeaking s now).wakeWordTimeout = s.wakeWordTimeout := by
  simp only [pauseSpeaking]
  split <;> rfl

/-- C4 counterexample: waking at 0 ms, hearing the interim fragment
"activate" at 9000 ms, timing out at 10000 ms and letting the stale
1.5-second debounce fire at 10500 ms leaves the system awake with
neither timer armed, and it stays awake through arbitrarily late timer
events although no final command or wake utterance ever occurs again. -/
theorem c4_wake_timeout_counterexample :
    staleDebounceState.isAwake = true ∧
    staleDebounceState.wakeWordTimeout = none ∧
    staleDebounceState.commandTimeout = none ∧
    (runEvents staleDebounceState
        [Event.wakeTick 999999999, Event.debounceTick 999999999]).isAwake =
      true := by
  decide

/-- C4 amended: while dormant, an utterance without the wake phrase is
ignored entirely and one with the wake phrase wakes the system and arms
the 10-second deactivation timer; whenever that timer is armed and
fires, the system deactivates; but a state that is awake with no armed
timer is inert under both timers, so deactivation is automatic only
while the timer is armed. -/
theorem c4_wake_gating_amended :
    (∀ s now f i, s.isAwake = false →
      includes (jsTrim (lowerStr (f ++ i))) wakeWord = false →
      mainOnResult s now f i = s) ∧
    (∀ s now f i, s.isAwake = false →
      includes (jsTrim (lowerStr (f ++ i))) wakeWord = true →
      (mainOnResult s now f i).isAwake = true ∧
      (mainOnResult s now f i).wakeWordTimeout = some (now + 10000)) ∧
    (∀ s d now, s.wakeWordTimeout = some d → d ≤ now →
      (step s (Event.wakeTick now)).isAwake = false ∧
      (step s (Event.wakeTick now)).wakeWordTimeout = none) ∧
    (∀ s now, s.wakeWordTimeout = none → s.commandTimeout = none →
      step s (Event.wakeTick now) = s ∧ step s (Event.debounceTick now) = s) := by
  refine ⟨?_, ?_, ?_, ?_⟩
  · intro s now f i hA hW
    simp only [mainOnResult]
    rw [hA, hW]
    rw [if_neg (by decide), if_pos (by decide)]
  · intro s now f i hA hW
    simp only [mainOnResult]
    rw [hA, hW]
    rw [if_pos (by decide)]
    exact ⟨rfl, rfl⟩
  · intro s d now hd hle
    simp only [step, hd, timerDue]
    rw [if_pos (decide_eq_true hle)]
    exact ⟨rfl, rfl⟩
  · intro s now h1 h2
    constructor
    · simp [step, timerDue, h1]
    · simp [step, timerDue, h2]

/-- C4 amended witness: the gating, arming and firing clauses at
concrete states of the wake scenario, and inertness of the initial
state. -/
theorem c4_wake_gating_amended_witness :
    mainOnResult (initState "1" none none none) 0 "download this" "" =
      initState "1" none none none ∧
    (mainOnResult (initState "1" none none none) 0 "" "hey schoology").isAwake =
      true ∧
    (mainOnResult (initState "1" none none none) 0 ""
        "hey schoology").wakeWordTimeout = some (0 + 10000) ∧
    (step (runEvents (initState "1" none none none)
        [Event.startClick, Event.mainResult 0 "" "hey schoology"])
      (Event.wakeTick 10000)).isAwake = false ∧
    step (initState "1" none none none) (Event.wakeTick 5) =
      initState "1" none none none := by
  refine ⟨?_, ?_, ?_, ?_, ?_⟩
  · exact c4_wake_gating_amended.1 (initState "1" none none none) 0
      "download this" "" rfl (by decide)
  · exact (c4_wake_gating_amended.2.1 (initState "1" none none none) 0
      "" "hey schoology" rfl (by decide)).1
  · exact (c4_wake_gating_amended.2.1 (initState "1" none none none) 0
      "" "hey schoology" rfl (by decide)).2
  · exact (c4_wake_gating_amended.2.2.1
      (runEvents (initState "1" none none none)
        [Event.startClick, Event.mainResult 0 "" "hey schoology"])
      10000 10000 (by decide) (by decide)).1
  · exact (c4_wake_gating_amended.2.2.2 (initState "1" none none none) 5
      rfl rfl).1

/-- C5 counterexample: waking the system and saying "add comment" enters
the recording session with the main engine torn down but the system
still awake; dictating and saying "stop comment" exits with a fresh
engine listening while still awake, so neither entry nor exit forces the
dormant state. -/
theorem c5_comment_session_counterexample :
    commentEntryState.isRecordingComment = true ∧
    commentEntryState.recognition = none ∧
    commentEntryState.isAwake = true ∧
    commentExitState.isRecordingComment = false ∧
    commentExitState.recognition = some 1 ∧
    commentExitState.isListening = true ∧
    commentExitState.isAwake = true := by
  decide

/-- C5 amended: entering the comment session tears the main engine down
entirely (instance dropped, listening and enabled flags cleared) and
starts the dedicated session, while exiting constructs a fresh main
engine instance and resumes listening; `awake` is left exactly as it was
on both transitions (only the still-armed wake timer or an explicit
deactivation can clear it). -/
theorem c5_comment_engine_amended :
    (∀ s now,
      (addComment s now).recognition = none ∧
      (addComment s now).isListening = false ∧
      (addComment s now).isEnabled = false ∧
      (addComment s now).isRecordingComment = true ∧
      (addComment s now).commentRecognition = true ∧
      (addComment s now).isAwake = s.isAwake ∧
      (addComment s now).wakeWordTimeout = s.wakeWordTimeout) ∧
    (∀ s now,
      (stopCommentAndSave s now).isRecordingComment = false ∧
      (stopCommentAndSave s now).commentRecognition = false ∧
      (stopCommentAndSave s now).recognition = some s.engineGen ∧
      (stopCommentAndSave s now).engineGen = s.engineGen + 1 ∧
      (stopCommentAndSave s now).isListening = true ∧
      (stopCommentAndSave s now).isEnabled = true ∧
      (stopCommentAndSave s now).isAwake = s.isAwake) := by
  constructor
  · intro s now
    refine ⟨rfl, rfl, rfl, rfl, rfl, ?_, ?_⟩
    · simp only [addComment]
      split
      · exact isAwake_pauseSpeaking s now
      · rfl
    · simp only [addComment]
      split
      · exact wakeTimeout_pauseSpeaking s now
      · rfl
  · intro s now
    refine ⟨recording_stopCommentAndSave s now, ?_, ?_, ?_, ?_, ?_, ?_⟩
    all_goals
      simp only [stopCommentAndSave, saveComment, initializeVoiceRecognition,
        startListening]
    all_goals split <;> split <;> first | rfl | assumption

end Schoology
